import Mathlib

/-!
Verification of the PivotOnTheGO control-plane daemon.

Shallow embedding conventions:
 - Go strings are `List Char`; `str` converts a Lean string literal.
 - Paths are component lists (`List (List Char)`); the cleaning step of
   `filepath.Join` is `cleanComps` (absolute-path semantics, which is the
   case for every path the program joins: they are rooted at the
   home directory of the user).
 - Side effects (directory creation, process spawning, file writes) are
   recorded in an explicit `Effect` trace; the outcomes of external
   calls (command exit status, captured output, write success) are
   supplied by an environment record, since the embedding is pure.
-/

namespace PivotOnTheGO

def str (s : String) : List Char := s.data

/-- ASCII whitespace, matching `unicode.IsSpace` on the ASCII range
(the only range exercised by the tool output handled here). -/
def isSpace (c : Char) : Bool :=
  c == ' ' || c == '\t' || c == '\n' || c == '\r' || c == '\x0b' || c == '\x0c'

def trimLeft : List Char → List Char
  | [] => []
  | c :: cs => if isSpace c then trimLeft cs else c :: cs

/-- Embedding of Go `strings.TrimSpace`. -/
def trimSpace (s : List Char) : List Char :=
  (trimLeft (trimLeft s.reverse).reverse)

/-- Split at every character satisfying `p`, keeping empty pieces:
the semantics of Go `strings.Split` for a one-character separator
(with `p` testing for that character). -/
def splitPred (p : Char → Bool) : List Char → List (List Char)
  | [] => [[]]
  | c :: cs =>
    if p c then [] :: splitPred p cs
    else
      match splitPred p cs with
      | [] => [[c]]
      | l :: ls => (c :: l) :: ls

/-- Embedding of Go `strings.Split(s, "\n")`. -/
def splitLines (s : List Char) : List (List Char) :=
  splitPred (fun c => c == '\n') s

/-- Embedding of Go `strings.Fields`. -/
def fieldsL (s : List Char) : List (List Char) :=
  (splitPred isSpace s).filter (fun l => !l.isEmpty)

def startsWithL : List Char → List Char → Bool
  | [], _ => true
  | _ :: _, [] => false
  | a :: as, b :: bs => a == b && startsWithL as bs

/-- Embedding of Go `strings.Contains`. -/
def containsSub (needle : List Char) : List Char → Bool
  | [] => startsWithL needle []
  | c :: cs => startsWithL needle (c :: cs) || containsSub needle cs

/-- Embedding of Go `strings.ReplaceAll` for a one-character pattern. -/
def replaceAllChar (old new : Char) : List Char → List Char
  | [] => []
  | c :: cs => (if c == old then new else c) :: replaceAllChar old new cs

def intToStr (i : Int) : List Char := (toString i).data

/-! ## Output normalization (core/fs_scout.go)

The Go functions both build the record buffer and write it with
`os.WriteFile`; here each returns the list of records (the written file
is the records joined, each terminated by a newline), and the outcome of
the `os.WriteFile` call is supplied by the backend environment. -/

/-- Embedding of `writeFSScoutOutputSSH` (the record computation):
non-blank trimmed stdout lines become `FILE|` records, then stderr lines
containing "Permission denied" become `DENIED|` records. -/
def writeFSScoutOutputSSH (stdout stderr : List Char) : List (List Char) :=
  let buf := (splitLines stdout).foldl (fun buf line =>
    let l := trimSpace line
    if l.isEmpty then buf else buf ++ [str "FILE|" ++ l]) []
  (splitLines stderr).foldl (fun buf line =>
    if containsSub (str "Permission denied") line then
      buf ++ [str "DENIED|" ++ trimSpace line]
    else buf) buf

/-- Embedding of `parseAndWriteSMBOutput` (the record computation). -/
def parseAndWriteSMBOutput (raw : List Char) : List (List Char) :=
  (splitLines raw).foldl (fun buf line =>
    let l := trimSpace line
    if l.isEmpty then buf
    else if containsSub (str "NT_STATUS_ACCESS_DENIED") l then
      buf ++ [str "DENIED|" ++ l]
    else
      match fieldsL l with
      | [] => buf
      | name :: _ =>
        if name = str "." ∨ name = str ".." then buf
        else buf ++ [str "FILE|" ++ name]) []

/-- Embedding of `parseAndWriteFSOutputGeneric` (the record computation). -/
def parseAndWriteFSOutputGeneric (raw : List Char) : List (List Char) :=
  (splitLines raw).foldl (fun buf line =>
    let l := trimSpace line
    if l.isEmpty then buf
    else if startsWithL (str "FILE|") l || startsWithL (str "DENIED|") l then
      buf ++ [l]
    else buf) []

/-! Specification-side restatements of the normalizers, written from
the words of the spec, to be compared with the source embeddings above. -/

/-- Spec reading of SSH normalization: one `FILE|` record per non-blank
(trimmed) stdout line in stdout order, followed by one `DENIED|` record
per stderr line containing "Permission denied"; all other stderr
discarded. -/
def sshNormalizeSpec (stdout stderr : List Char) : List (List Char) :=
  ((splitLines stdout).filter (fun l => !(trimSpace l).isEmpty)).map
      (fun l => str "FILE|" ++ trimSpace l)
    ++ ((splitLines stderr).filter (fun l => containsSub (str "Permission denied") l)).map
      (fun l => str "DENIED|" ++ trimSpace l)

/-- Spec reading of SMB normalization of a single raw line. -/
def smbLineSpec (line : List Char) : Option (List Char) :=
  let l := trimSpace line
  if l.isEmpty then none
  else if containsSub (str "NT_STATUS_ACCESS_DENIED") l then
    some (str "DENIED|" ++ l)
  else
    match fieldsL l with
    | [] => none
    | tok :: _ =>
      if tok = str "." ∨ tok = str ".." then none
      else some (str "FILE|" ++ tok)

/-! ## Host sanitization and path cleaning (core/fs_scout.go) -/

/-- Embedding of `sanitizeHost`: trim surrounding whitespace, then
replace every ':' and every '/' by '_'. -/
def sanitizeHost (h : List Char) : List Char :=
  replaceAllChar '/' '_' (replaceAllChar ':' '_' (trimSpace h))

/-- The cleaning step of Go `filepath.Join` on an absolute path,
expressed on path components: empty and "." components vanish, ".."
removes the preceding component. -/
def cleanComps (cs : List (List Char)) : List (List Char) :=
  cs.foldl (fun acc c =>
    if c = [] ∨ c = str "." then acc
    else if c = str ".." then acc.dropLast
    else acc ++ [c]) []

/-! ## Scout data model (core/fs_scout.go) -/

structure FSScoutRequest where
  protocol : List Char
  host : List Char
  port : Int
  username : List Char
  password : List Char
  smbShare : List Char
  startDir : List Char
  depth : Int
  mode : List Char
deriving DecidableEq

structure FSScoutResult where
  outputFile : List (List Char)
  protocol : List Char
  mode : List Char
  host : List Char
  error : List Char
deriving DecidableEq

def emptyFSScoutResult : FSScoutResult := ⟨[], [], [], [], []⟩

/-- One observable side effect of a scout run. -/
inductive Effect where
  | mkdir (path : List (List Char))
  | spawn (prog : List Char) (args : List (List Char))
  | write (path : List (List Char)) (records : List (List Char))
deriving DecidableEq

/-- Outcomes of the external calls a backend performs: the error
of the spawned command (none = exit 0), its captured streams (`stdout` and
`stderr` separately for ssh; `combined` for the backends that merge
them), and the outcome of the `os.WriteFile` call. -/
structure BackendEnv where
  cmdErr : Option (List Char)
  stdout : List Char
  stderr : List Char
  combined : List Char
  writeErr : Option (List Char)
deriving DecidableEq

/-- Outcomes of the external calls made by the runner itself: `DefaultLootDir`
(loot root as path components, or an error), `os.MkdirAll`, and the
formatted timestamp. -/
structure ScoutEnv where
  lootDir : Except (List Char) (List (List Char))
  mkdirErr : Option (List Char)
  ts : List Char
  backend : BackendEnv

/-! ## Scout backends (core/fs_scout.go) -/

/-- The argument list of the `ssh` command built by `runFSScoutSSH`. -/
def sshArgs (req : FSScoutRequest) : List (List Char) :=
  let port := if req.port = 0 then (22 : Int) else req.port
  [str "-p", intToStr port,
   req.username ++ str "@" ++ req.host,
   str "find", req.startDir,
   str "-maxdepth", intToStr req.depth,
   str "-type", str "f",
   str "-printf", str "%p\n"]

/-- Embedding of `runFSScoutSSH`: spawn ssh, then always attempt the
normalize-and-write; a command failure is returned wrapped, otherwise
the write outcome is returned. -/
def runFSScoutSSH (benv : BackendEnv) (req : FSScoutRequest)
    (outPath : List (List Char)) : Option (List Char) × List Effect :=
  let records := writeFSScoutOutputSSH benv.stdout benv.stderr
  let effs := [Effect.spawn (str "ssh") (sshArgs req),
               Effect.write outPath records]
  match benv.cmdErr with
  | some e => (some (str "ssh command failed: " ++ e), effs)
  | none => (benv.writeErr, effs)

/-- The argument list of the `smbclient` command built by `runFSScoutSMB`. -/
def smbArgs (req : FSScoutRequest) : List (List Char) :=
  let target := str "//" ++ req.host ++ str "/" ++ req.smbShare
  let userArg := req.username ++ str "%" ++ req.password
  [target, str "-U", userArg, str "-c", str "recurse; ls"]

/-- Embedding of `runFSScoutSMB`. -/
def runFSScoutSMB (benv : BackendEnv) (req : FSScoutRequest)
    (outPath : List (List Char)) : Option (List Char) × List Effect :=
  if req.smbShare.isEmpty then
    (some (str "SMB share name is required for smb protocol"), [])
  else
    let records := parseAndWriteSMBOutput benv.combined
    let effs := [Effect.spawn (str "smbclient") (smbArgs req),
                 Effect.write outPath records]
    match benv.cmdErr with
    | some e => (some (str "smbclient command failed: " ++ e), effs)
    | none => (benv.writeErr, effs)

/-- The PowerShell walker script built by `runFSScoutEvilWinRM`,
before newline flattening. -/
def psScriptTemplate (startDir : List Char) (depth : Int) : List Char :=
  str "\n$start = \"" ++ startDir ++ str "\"\n$depth = " ++ intToStr depth
    ++ str "\nfunction Walk($path, $level) \x7b\n    if ($level -gt $depth) \x7b return \x7d\n    try \x7b\n        Get-ChildItem -Path $path -ErrorAction Stop | ForEach-Object \x7b\n            if ($_.PSIsContainer) \x7b\n                Walk $_.FullName ($level + 1)\n            \x7d else \x7b\n                \"FILE|$($_.FullName)\"\n            \x7d\n        \x7d\n    \x7d catch \x7b\n        \"DENIED|$path\"\n    \x7d\n\x7d\nWalk $start 0\n"

/-- The argument list of the `evil-winrm` command. -/
def winrmArgs (req : FSScoutRequest) : List (List Char) :=
  let port := if req.port = 0 then (5985 : Int) else req.port
  [str "-i", req.host,
   str "-u", req.username,
   str "-p", req.password,
   str "-P", intToStr port,
   str "-c", replaceAllChar '\n' ' ' (psScriptTemplate req.startDir req.depth)]

/-- Embedding of `runFSScoutEvilWinRM`. -/
def runFSScoutEvilWinRM (benv : BackendEnv) (req : FSScoutRequest)
    (outPath : List (List Char)) : Option (List Char) × List Effect :=
  let records := parseAndWriteFSOutputGeneric benv.combined
  let effs := [Effect.spawn (str "evil-winrm") (winrmArgs req),
               Effect.write outPath records]
  match benv.cmdErr with
  | some e => (some (str "evil-winrm command failed: " ++ e), effs)
  | none => (benv.writeErr, effs)

/-! ## The scout runner (core/fs_scout.go, RunFSScout) -/

/-- Embedding of `RunFSScout`. Returns the result record, the returned
error (if any), and the trace of side effects in order. -/
def RunFSScout (env : ScoutEnv) (req : FSScoutRequest) :
    FSScoutResult × Option (List Char) × List Effect :=
  if req.host.isEmpty then
    (emptyFSScoutResult, some (str "host is required"), [])
  else if req.username.isEmpty || req.password.isEmpty then
    (emptyFSScoutResult, some (str "username and password are required"), [])
  else if req.startDir.isEmpty then
    (emptyFSScoutResult, some (str "start directory is required"), [])
  else
    let req := { req with
      depth := if req.depth ≤ 0 then 3 else req.depth,
      mode := if req.mode.isEmpty then str "fast" else req.mode }
    match env.lootDir with
    | Except.error e => (emptyFSScoutResult, some e, [])
    | Except.ok lootComps =>
      let fsBase := cleanComps (lootComps ++ [str "fs", sanitizeHost req.host])
      match env.mkdirErr with
      | some e => (emptyFSScoutResult, some e, [Effect.mkdir fsBase])
      | none =>
        let outName := env.ts ++ str "_" ++ req.protocol ++ str "_"
          ++ req.mode ++ str ".txt"
        let outPath := fsBase ++ [outName]
        let dispatched :=
          if req.protocol = str "ssh" then runFSScoutSSH env.backend req outPath
          else if req.protocol = str "smb" then runFSScoutSMB env.backend req outPath
          else if req.protocol = str "ftp" then
            (some (str "FTP auto-scout not implemented yet; use generate-only / manual mode"), [])
          else if req.protocol = str "evil-winrm" then
            runFSScoutEvilWinRM env.backend req outPath
          else (some (str "unsupported protocol"), [])
        let res : FSScoutResult :=
          ⟨outPath, req.protocol, req.mode, req.host, (dispatched.1).getD []⟩
        (res, dispatched.1, Effect.mkdir fsBase :: dispatched.2)

/-! ## HTTP layer (main package) -/

/-- Embedding of `handleFSScout` after a successful JSON decode:
on any `RunFSScout` error the handler responds 400 with the result
record as body; on success, 200. -/
def handleFSScout (env : ScoutEnv) (req : FSScoutRequest) :
    Nat × FSScoutResult :=
  let out := RunFSScout env req
  match out.2.1 with
  | some _ => (400, out.1)
  | none => (200, out.1)

/-- Outcome of `core.LoadConfig`: loaded, file absent (defaults used),
or another failure. -/
inductive CfgLoad where
  | ok
  | notExist
  | failed
deriving DecidableEq

/-- An HTTP response: status code, the value of the single body field,
and whether that field is `"error"` (respondError) or `"status"`
(respondJSON with a status payload). -/
structure ApiResp where
  status : Nat
  body : List Char
  isErr : Bool
deriving DecidableEq

inductive ProxyEffect where
  | spawnProxy (pid : Nat)
  | killProxy (pid : Nat)
deriving DecidableEq

/-- Environment for `handleStartProxy`: the config-load outcome,
whether `core.StartProxy` succeeds, and the id of the process it
would create. -/
structure ProxyEnv where
  cfg : CfgLoad
  startOk : Bool
  pid : Nat
deriving DecidableEq

/-- Embedding of `handleStartProxy` (state = the guarded `proxyCmd`
handle). Returns the new state, the response, and spawn effects. -/
def handleStartProxy (env : ProxyEnv) (s : Option Nat) :
    Option Nat × ApiResp × List ProxyEffect :=
  match s with
  | some h => (some h, ⟨409, str "proxy already running", true⟩, [])
  | none =>
    match env.cfg with
    | CfgLoad.failed => (none, ⟨500, str "failed to load config", true⟩, [])
    | _ =>
      if env.startOk then
        (some env.pid, ⟨200, str "started", false⟩,
          [ProxyEffect.spawnProxy env.pid])
      else
        (none, ⟨500, str "failed to start proxy", true⟩,
          [ProxyEffect.spawnProxy env.pid])

/-- Embedding of `handleStopProxy`. The kill effect is recorded when a
handle exists (the embedded process is always non-nil once started). -/
def handleStopProxy (s : Option Nat) :
    Option Nat × ApiResp × List ProxyEffect :=
  match s with
  | none => (none, ⟨200, str "not_running", false⟩, [])
  | some h => (none, ⟨200, str "stopped", false⟩, [ProxyEffect.killProxy h])

/-- Embedding of `handleStatus`: running iff a handle exists. -/
def handleStatus (s : Option Nat) : Bool := s.isSome

inductive FileEffect where
  | listen (addr : List Char)
  | shutdown
deriving DecidableEq

/-- Environment for `handleFileStart`: config-load outcome, the
file-server fields of the sanitized config, the `os.Stat` outcome on the
directory (none = stat error, some b = exists with IsDir = b), whether
`net.Listen` succeeds, and the id of the server it would create. -/
structure FileEnv where
  cfg : CfgLoad
  fileDirectory : List Char
  fileBind : List Char
  filePort : Nat
  statDir : Option Bool
  listenOk : Bool
  srvId : Nat
deriving DecidableEq

/-- Embedding of `handleFileStart` (state = the guarded `fileSrv`
handle). -/
def handleFileStart (env : FileEnv) (s : Option Nat) :
    Option Nat × ApiResp × List FileEffect :=
  match s with
  | some h => (some h, ⟨409, str "file server already running", true⟩, [])
  | none =>
    match env.cfg with
    | CfgLoad.failed => (none, ⟨500, str "failed to load config", true⟩, [])
    | _ =>
      if env.fileDirectory.isEmpty then
        (none, ⟨400, str "invalid file directory", true⟩, [])
      else
        match env.statDir with
        | none => (none, ⟨400, str "invalid file directory", true⟩, [])
        | some false => (none, ⟨400, str "invalid file directory", true⟩, [])
        | some true =>
          let addr := env.fileBind ++ str ":" ++ (toString env.filePort).data
          if env.listenOk then
            (some env.srvId, ⟨200, str "started", false⟩,
              [FileEffect.listen addr])
          else
            (none, ⟨500, str "failed to start file server", true⟩,
              [FileEffect.listen addr])

/-- Embedding of `handleFileStop`. -/
def handleFileStop (s : Option Nat) :
    Option Nat × ApiResp × List FileEffect :=
  match s with
  | none => (none, ⟨200, str "not_running", false⟩, [])
  | some _ => (none, ⟨200, str "stopped", false⟩, [FileEffect.shutdown])

/-- Spec-side characterization of the per-character substitution done
by `sanitizeHost`. -/
def sanChar (c : Char) : Char := if c = ':' ∨ c = '/' then '_' else c

/-! ## Concrete instances used by witnesses and counterexamples -/

def lootW : List (List Char) := [str "home", str "u", str "loot"]

def benvQuiet : BackendEnv := ⟨none, [], [], [], none⟩

def envW : ScoutEnv := ⟨Except.ok lootW, none, str "2024-01-01_00-00-00", benvQuiet⟩

def benvSSHFail : BackendEnv := ⟨some (str "exit status 255"), [], [], [], none⟩

def envSSHFail : ScoutEnv :=
  ⟨Except.ok lootW, none, str "2024-01-01_00-00-00", benvSSHFail⟩

def reqSSHW : FSScoutRequest :=
  ⟨str "ssh", str "10.0.0.5", 0, str "u", str "p", [], str "/srv", 0, []⟩

def reqSMBNoShare : FSScoutRequest :=
  ⟨str "smb", str "10.0.0.5", 0, str "u", str "p", [], str "/srv", 0, []⟩

def reqSMBW : FSScoutRequest :=
  ⟨str "smb", str "10.0.0.5", 0, str "u", str "p", str "docs", str "/srv", 0, []⟩

def reqFTPW : FSScoutRequest :=
  ⟨str "ftp", str "10.0.0.5", 0, str "u", str "p", [], str "/srv", 0, []⟩

def reqHostEmpty : FSScoutRequest :=
  ⟨str "ssh", [], 0, str "u", str "p", [], str "/srv", 0, []⟩

def reqUserEmpty : FSScoutRequest :=
  ⟨str "ssh", str "10.0.0.5", 0, [], str "p", [], str "/srv", 0, []⟩

def reqDirEmpty : FSScoutRequest :=
  ⟨str "ssh", str "10.0.0.5", 0, str "u", str "p", [], [], 0, []⟩

def pathW : List (List Char) := [str "home", str "u", str "out.txt"]

/-! # Theorems -/

theorem foldl_file_records (lines : List (List Char)) (acc : List (List Char)) :
    lines.foldl (fun buf line =>
        let l := trimSpace line
        if l.isEmpty then buf else buf ++ [str "FILE|" ++ l]) acc
      = acc ++ (lines.filter (fun l => !(trimSpace l).isEmpty)).map
          (fun l => str "FILE|" ++ trimSpace l) := by
  induction lines generalizing acc with
  | nil => simp
  | cons x xs ih =>
    rw [List.foldl_cons, ih]
    cases h : (trimSpace x).isEmpty with
    | true => simp [List.filter_cons, h]
    | false => simp [List.filter_cons, h]

theorem foldl_denied_records (lines : List (List Char)) (acc : List (List Char)) :
    lines.foldl (fun buf line =>
        if containsSub (str "Permission denied") line then
          buf ++ [str "DENIED|" ++ trimSpace line]
        else buf) acc
      = acc ++ (lines.filter (fun l => containsSub (str "Permission denied") l)).map
          (fun l => str "DENIED|" ++ trimSpace l) := by
  induction lines generalizing acc with
  | nil => simp
  | cons x xs ih =>
    rw [List.foldl_cons, ih]
    cases h : containsSub (str "Permission denied") x with
    | true => simp [List.filter_cons, h]
    | false => simp [List.filter_cons, h]

theorem foldl_smb_records (lines : List (List Char)) (acc : List (List Char)) :
    lines.foldl (fun buf line =>
        let l := trimSpace line
        if l.isEmpty then buf
        else if containsSub (str "NT_STATUS_ACCESS_DENIED") l then
          buf ++ [str "DENIED|" ++ l]
        else
          match fieldsL l with
          | [] => buf
          | name :: _ =>
            if name = str "." ∨ name = str ".." then buf
            else buf ++ [str "FILE|" ++ name]) acc
      = acc ++ lines.filterMap smbLineSpec := by
  induction lines generalizing acc with
  | nil => simp
  | cons x xs ih =>
    rw [List.foldl_cons, ih]
    cases hblank : (trimSpace x).isEmpty with
    | true => simp [smbLineSpec, List.filterMap_cons, hblank]
    | false =>
      cases hden : containsSub (str "NT_STATUS_ACCESS_DENIED") (trimSpace x) with
      | true => simp [smbLineSpec, List.filterMap_cons, hblank, hden]
      | false =>
        cases hf : fieldsL (trimSpace x) with
        | nil => simp [smbLineSpec, List.filterMap_cons, hblank, hden, hf]
        | cons name rest =>
          by_cases hdot : name = str "." ∨ name = str ".."
          · simp [smbLineSpec, List.filterMap_cons, hblank, hden, hf, hdot]
          · simp [smbLineSpec, List.filterMap_cons, hblank, hden, hf, hdot]

/-- Claim C6: SSH output normalization emits exactly one `FILE|` record
per non-blank (trimmed) stdout line, in stdout order, followed by one
`DENIED|` record per stderr line containing "Permission denied", and
discards all other stderr; in particular, stdout
`"/etc/passwd\n/etc/shadow\n\n"` with one permission-denied stderr line
yields exactly two `FILE|` records then one `DENIED|` record. -/
theorem ssh_normalization_ok :
    (∀ stdout stderr, writeFSScoutOutputSSH stdout stderr
        = sshNormalizeSpec stdout stderr) ∧
    writeFSScoutOutputSSH (str "/etc/passwd\n/etc/shadow\n\n")
        (str "find: /root: Permission denied\n")
      = [str "FILE|/etc/passwd", str "FILE|/etc/shadow",
         str "DENIED|find: /root: Permission denied"] := by
  constructor
  · intro stdout stderr
    unfold writeFSScoutOutputSSH sshNormalizeSpec
    rw [foldl_file_records, foldl_denied_records]
    simp
  · decide

/-- Claim C7: SMB output normalization maps every trimmed non-blank
line containing `NT_STATUS_ACCESS_DENIED` to a `DENIED|` record;
otherwise the first whitespace-delimited token of a non-blank line
becomes a `FILE|` record unless it is "." or ".."; blank lines produce
no record. Illustrated on the three example lines. -/
theorem smb_normalization_ok :
    (∀ raw, parseAndWriteSMBOutput raw = (splitLines raw).filterMap smbLineSpec) ∧
    parseAndWriteSMBOutput (str "NT_STATUS_ACCESS_DENIED listing \\x")
      = [str "DENIED|NT_STATUS_ACCESS_DENIED listing \\x"] ∧
    parseAndWriteSMBOutput (str "  secret.txt    A    0  Mon Jan  1 00:00:00 2024")
      = [str "FILE|secret.txt"] ∧
    parseAndWriteSMBOutput (str ".    D    0\n..    D    0\n\n") = [] := by
  refine ⟨?_, by decide, by decide, by decide⟩
  intro raw
  unfold parseAndWriteSMBOutput
  rw [foldl_smb_records]
  simp

theorem replaceAllChar_eq_map (old new : Char) (l : List Char) :
    replaceAllChar old new l = l.map (fun c => if c == old then new else c) := by
  induction l with
  | nil => rfl
  | cons c cs ih => simp [replaceAllChar, ih]

theorem sanitizeHost_eq_map (h : List Char) :
    sanitizeHost h = (trimSpace h).map sanChar := by
  unfold sanitizeHost
  rw [replaceAllChar_eq_map, replaceAllChar_eq_map, List.map_map]
  apply List.map_congr_left
  intro c _
  simp only [Function.comp, sanChar]
  by_cases h1 : c = ':'
  · subst h1; decide
  · by_cases h2 : c = '/'
    · subst h2; decide
    · simp [h1, h2]

theorem cleanComps_plain (cs : List (List Char))
    (hp : ∀ c ∈ cs, c ≠ [] ∧ c ≠ str "." ∧ c ≠ str "..") :
    ∀ acc, cs.foldl (fun acc c =>
        if c = [] ∨ c = str "." then acc
        else if c = str ".." then acc.dropLast
        else acc ++ [c]) acc = acc ++ cs := by
  induction cs with
  | nil => intro acc; simp
  | cons x xs ih =>
    intro acc
    obtain ⟨hx, hxs⟩ := List.forall_mem_cons.mp hp
    rw [List.foldl_cons, ih hxs]
    simp [hx.1, hx.2.1, hx.2.2]

/-- Claim C10: `sanitizeHost` only trims surrounding whitespace and
replaces every ':' and '/' by '_', leaving '.' intact; in particular a
host of ".." is returned unchanged, and the artifact base directory
`Join(<loot>, "fs", "..")` cleans to the loot root itself — outside the
`fs` subtree. -/
theorem sanitizeHost_dotdot_escapes_fs :
    (∀ h, sanitizeHost h = (trimSpace h).map sanChar) ∧
    sanitizeHost (str "..") = str ".." ∧
    ∀ loot : List (List Char),
      (∀ c ∈ loot, c ≠ [] ∧ c ≠ str "." ∧ c ≠ str "..") →
      cleanComps (loot ++ [str "fs", sanitizeHost (str "..")]) = loot := by
  refine ⟨sanitizeHost_eq_map, by decide, ?_⟩
  intro loot hp
  have hdd : sanitizeHost (str "..") = str ".." := by decide
  rw [hdd]
  unfold cleanComps
  rw [List.foldl_append, cleanComps_plain loot hp]
  have h1 : ¬(str "fs" = [] ∨ str "fs" = str ".") := by decide
  have h2 : str "fs" ≠ str ".." := by decide
  have h3 : ¬(str ".." = [] ∨ str ".." = str ".") := by decide
  simp [h1, h2, h3, List.dropLast_concat]

/-- Witness for C10: a concrete loot root with plain components. -/
theorem sanitizeHost_dotdot_escapes_fs_witness :
    cleanComps (lootW ++ [str "fs", sanitizeHost (str "..")]) = lootW :=
  sanitizeHost_dotdot_escapes_fs.2.2 lootW (by decide)

/-- Claim C9: the SSH backend never places the password in the spawned
command: the argument list (and the entire observable
backend behavior) is identical for any two requests differing only in the
password field. -/
theorem ssh_password_never_in_args :
    ∀ (req : FSScoutRequest) (p₁ p₂ : List Char) (benv : BackendEnv)
      (outPath : List (List Char)),
      sshArgs { req with password := p₁ } = sshArgs { req with password := p₂ } ∧
      runFSScoutSSH benv { req with password := p₁ } outPath
        = runFSScoutSSH benv { req with password := p₂ } outPath :=
  fun _ _ _ _ _ => ⟨rfl, rfl⟩

/-- Claim C2: Stop is idempotent for both managed-service kinds: with no
handle it answers 200 `not_running` with no side effect; with a handle it
terminates the service, clears the handle, and answers 200 `stopped`. -/
theorem stop_idempotent :
    ∀ (h fh : Nat),
      handleStopProxy none = (none, ⟨200, str "not_running", false⟩, []) ∧
      handleStopProxy (some h)
        = (none, ⟨200, str "stopped", false⟩, [ProxyEffect.killProxy h]) ∧
      handleFileStop none = (none, ⟨200, str "not_running", false⟩, []) ∧
      handleFileStop (some fh)
        = (none, ⟨200, str "stopped", false⟩, [FileEffect.shutdown]) :=
  fun _ _ => ⟨rfl, rfl, rfl, rfl⟩

/-- Claim C1: for each managed-service kind at most one live handle
exists and handle existence is the single source of truth: Start on an
existing handle answers 409 `AlreadyRunning`, spawns nothing and leaves
the handle untouched; and from the idle state a successful Start
followed by another Start yields exactly one success, one conflict, and
one spawn/listen in total. -/
theorem start_conflict_single_handle :
    ∀ (penv : ProxyEnv) (fenv : FileEnv) (h fh : Nat),
      handleStatus (some h) = true ∧ handleStatus none = false ∧
      handleStartProxy penv (some h)
        = (some h, ⟨409, str "proxy already running", true⟩, []) ∧
      handleFileStart fenv (some fh)
        = (some fh, ⟨409, str "file server already running", true⟩, []) ∧
      (penv.cfg ≠ CfgLoad.failed → penv.startOk = true →
        handleStartProxy penv none
          = (some penv.pid, ⟨200, str "started", false⟩,
             [ProxyEffect.spawnProxy penv.pid]) ∧
        handleStartProxy penv (handleStartProxy penv none).1
          = ((handleStartProxy penv none).1,
             ⟨409, str "proxy already running", true⟩, [])) ∧
      (fenv.cfg ≠ CfgLoad.failed → fenv.fileDirectory.isEmpty = false →
        fenv.statDir = some true → fenv.listenOk = true →
        handleFileStart fenv none
          = (some fenv.srvId, ⟨200, str "started", false⟩,
             [FileEffect.listen (fenv.fileBind ++ str ":"
               ++ (toString fenv.filePort).data)]) ∧
        handleFileStart fenv (handleFileStart fenv none).1
          = ((handleFileStart fenv none).1,
             ⟨409, str "file server already running", true⟩, [])) := by
  intro penv fenv h fh
  refine ⟨rfl, rfl, rfl, rfl, ?_, ?_⟩
  · intro hcfg hok
    obtain ⟨cfg, so, pid⟩ := penv
    cases so with
    | false => exact absurd hok (by simp)
    | true =>
      cases cfg with
      | ok => exact ⟨rfl, rfl⟩
      | notExist => exact ⟨rfl, rfl⟩
      | failed => exact absurd rfl hcfg
  · intro hcfg hdir hstat hlisten
    obtain ⟨cfg, dir, bind, port, sd, lo, sid⟩ := fenv
    simp only at hdir hstat hlisten
    subst hstat hlisten
    cases cfg with
    | ok => simp [handleFileStart, hdir]
    | notExist => simp [handleFileStart, hdir]
    | failed => exact absurd rfl hcfg

/-- Witness for C1: concrete environments exercising both kinds. -/
theorem start_conflict_single_handle_witness :
    handleStartProxy ⟨CfgLoad.ok, true, 7⟩ (some 5)
      = (some 5, ⟨409, str "proxy already running", true⟩, []) ∧
    handleStartProxy ⟨CfgLoad.ok, true, 7⟩ none
      = (some 7, ⟨200, str "started", false⟩, [ProxyEffect.spawnProxy 7]) ∧
    handleFileStart ⟨CfgLoad.ok, str "/tmp", str "0.0.0.0", 8000, some true, true, 3⟩ none
      = (some 3, ⟨200, str "started", false⟩,
         [FileEffect.listen (str "0.0.0.0" ++ str ":" ++ (toString (8000 : Nat)).data)]) := by
  have T := start_conflict_single_handle ⟨CfgLoad.ok, true, 7⟩
    ⟨CfgLoad.ok, str "/tmp", str "0.0.0.0", 8000, some true, true, 3⟩ 5 4
  exact ⟨T.2.2.1, (T.2.2.2.2.1 (by decide) rfl).1,
    (T.2.2.2.2.2 (by decide) rfl rfl rfl).1⟩

/-- Claim C4: every scout backend always attempts the normalize-and-
persist step, even when the external command failed, and the two
outcomes are reported independently: a command failure is returned
(wrapped with backend context) regardless of the write outcome,
and when the command succeeded the write outcome is what is returned. -/
theorem backend_write_and_error_independence :
    ∀ (benv : BackendEnv) (req : FSScoutRequest) (outPath : List (List Char)),
      (Effect.write outPath (writeFSScoutOutputSSH benv.stdout benv.stderr)
        ∈ (runFSScoutSSH benv req outPath).2) ∧
      (∀ e, benv.cmdErr = some e →
        (runFSScoutSSH benv req outPath).1 = some (str "ssh command failed: " ++ e)) ∧
      (benv.cmdErr = none → (runFSScoutSSH benv req outPath).1 = benv.writeErr) ∧
      (req.smbShare ≠ [] →
        (Effect.write outPath (parseAndWriteSMBOutput benv.combined)
          ∈ (runFSScoutSMB benv req outPath).2) ∧
        (∀ e, benv.cmdErr = some e →
          (runFSScoutSMB benv req outPath).1
            = some (str "smbclient command failed: " ++ e)) ∧
        (benv.cmdErr = none → (runFSScoutSMB benv req outPath).1 = benv.writeErr)) ∧
      (Effect.write outPath (parseAndWriteFSOutputGeneric benv.combined)
        ∈ (runFSScoutEvilWinRM benv req outPath).2) ∧
      (∀ e, benv.cmdErr = some e →
        (runFSScoutEvilWinRM benv req outPath).1
          = some (str "evil-winrm command failed: " ++ e)) ∧
      (benv.cmdErr = none → (runFSScoutEvilWinRM benv req outPath).1 = benv.writeErr) := by
  intro benv req outPath
  have hshare : req.smbShare ≠ [] → req.smbShare.isEmpty = false := by
    intro hne
    cases hr : req.smbShare with
    | nil => exact absurd hr hne
    | cons a as => rfl
  refine ⟨?_, ?_, ?_, ?_, ?_, ?_, ?_⟩
  · cases hc : benv.cmdErr <;> simp [runFSScoutSSH, hc]
  · intro e hc; simp [runFSScoutSSH, hc]
  · intro hc; simp [runFSScoutSSH, hc]
  · intro hne
    refine ⟨?_, ?_, ?_⟩
    · cases hc : benv.cmdErr <;> simp [runFSScoutSMB, hshare hne, hc]
    · intro e hc; simp [runFSScoutSMB, hshare hne, hc]
    · intro hc; simp [runFSScoutSMB, hshare hne, hc]
  · cases hc : benv.cmdErr <;> simp [runFSScoutEvilWinRM, hc]
  · intro e hc; simp [runFSScoutEvilWinRM, hc]
  · intro hc; simp [runFSScoutEvilWinRM, hc]

/-- Witness for C4: a failed command with a failed write still reports
the command failure, and a successful command reports the write
outcome; the write is attempted in both cases. -/
theorem backend_write_and_error_independence_witness :
    (Effect.write pathW (writeFSScoutOutputSSH [] [])
      ∈ (runFSScoutSSH ⟨some (str "exit status 255"), [], [], [], some (str "disk full")⟩ reqSSHW pathW).2) ∧
    (runFSScoutSSH ⟨some (str "exit status 255"), [], [], [], some (str "disk full")⟩ reqSSHW pathW).1
      = some (str "ssh command failed: " ++ str "exit status 255") ∧
    (runFSScoutSMB ⟨none, [], [], [], some (str "disk full")⟩ reqSMBW pathW).1
      = some (str "disk full") := by
  have T1 := backend_write_and_error_independence
    ⟨some (str "exit status 255"), [], [], [], some (str "disk full")⟩ reqSSHW pathW
  have T2 := backend_write_and_error_independence
    ⟨none, [], [], [], some (str "disk full")⟩ reqSMBW pathW
  exact ⟨T1.1, T1.2.1 (str "exit status 255") rfl,
    (T2.2.2.2.1 (by decide)).2.2 rfl⟩

theorem isEmpty_false_of_ne_nil {α : Type} {l : List α} (h : l ≠ []) :
    l.isEmpty = false := by
  cases l with
  | nil => exact absurd rfl h
  | cons a as => rfl

/-- Claim C8: an "ftp" scout request with all mandatory fields present
fails with the not-implemented error, the result carries a non-empty
error, and the only side effect is the creation of the host-scoped
directory — no process is spawned and no artifact is written. -/
theorem ftp_not_implemented :
    ∀ (env : ScoutEnv) (req : FSScoutRequest) (loot : List (List Char)),
      req.protocol = str "ftp" → req.host ≠ [] → req.username ≠ [] →
      req.password ≠ [] → req.startDir ≠ [] →
      env.lootDir = Except.ok loot → env.mkdirErr = none →
      (RunFSScout env req).2.1
        = some (str "FTP auto-scout not implemented yet; use generate-only / manual mode") ∧
      (RunFSScout env req).1.error ≠ [] ∧
      (RunFSScout env req).2.2
        = [Effect.mkdir (cleanComps (loot ++ [str "fs", sanitizeHost req.host]))] := by
  intro env req loot hp hh hu hpw hd hl hm
  have hne1 : ¬(str "ftp" = str "ssh") := by decide
  have hne2 : ¬(str "ftp" = str "smb") := by decide
  simp [RunFSScout, isEmpty_false_of_ne_nil hh, isEmpty_false_of_ne_nil hu,
    isEmpty_false_of_ne_nil hpw, isEmpty_false_of_ne_nil hd, hl, hm, hp,
    hne1, hne2, emptyFSScoutResult, str]

/-- Witness for C8: a concrete valid ftp request. -/
theorem ftp_not_implemented_witness :
    (RunFSScout envW reqFTPW).2.1
      = some (str "FTP auto-scout not implemented yet; use generate-only / manual mode") ∧
    (RunFSScout envW reqFTPW).1.error ≠ [] ∧
    (RunFSScout envW reqFTPW).2.2
      = [Effect.mkdir (cleanComps (lootW ++ [str "fs", sanitizeHost reqFTPW.host]))] :=
  ftp_not_implemented envW reqFTPW lootW rfl (by decide) (by decide)
    (by decide) (by decide) rfl rfl

/-- Counterexample to C3 as stated: an SMB request with an empty share
name is rejected, but only after the host-scoped directory has been
created — the validation error is not raised before all I/O. -/
theorem smb_share_check_after_mkdir_cex :
    (RunFSScout envW reqSMBNoShare).2.1
      = some (str "SMB share name is required for smb protocol") ∧
    (RunFSScout envW reqSMBNoShare).2.2
      = [Effect.mkdir [str "home", str "u", str "loot", str "fs", str "10.0.0.5"]] ∧
    (RunFSScout envW reqSMBNoShare).2.2 ≠ [] := by
  refine ⟨by decide, by decide, by decide⟩

/-- Claim C3 (amended): empty host, username, password and start
directory are each rejected independently before any I/O or process
spawn (the effect trace is empty); an SMB request with an empty share
is rejected before any external process is spawned or artifact written,
but only after the host directory creation. -/
theorem scout_validation_order :
    ∀ (env : ScoutEnv) (req : FSScoutRequest),
      (req.host = [] →
        RunFSScout env req = (emptyFSScoutResult, some (str "host is required"), [])) ∧
      (req.username = [] ∨ req.password = [] →
        (RunFSScout env req).2.2 = [] ∧ ((RunFSScout env req).2.1).isSome = true) ∧
      (req.startDir = [] →
        (RunFSScout env req).2.2 = [] ∧ ((RunFSScout env req).2.1).isSome = true) ∧
      (req.protocol = str "smb" → req.smbShare = [] →
        ((RunFSScout env req).2.1).isSome = true ∧
        ∀ e ∈ (RunFSScout env req).2.2, ∃ p, e = Effect.mkdir p) := by
  intro env req
  refine ⟨?_, ?_, ?_, ?_⟩
  · intro h
    simp [RunFSScout, h]
  · intro h
    cases hh : req.host.isEmpty with
    | true => simp [RunFSScout, hh]
    | false => rcases h with h | h <;> simp [RunFSScout, hh, h]
  · intro h
    cases hh : req.host.isEmpty with
    | true => simp [RunFSScout, hh]
    | false =>
      cases hup : req.username.isEmpty || req.password.isEmpty with
      | true => simp [RunFSScout, hh, hup]
      | false => simp [RunFSScout, hh, hup, h]
  · intro hp hs
    have hne1 : ¬(str "smb" = str "ssh") := by decide
    cases hh : req.host.isEmpty with
    | true => simp [RunFSScout, hh]
    | false =>
      cases hup : req.username.isEmpty || req.password.isEmpty with
      | true => simp [RunFSScout, hh, hup]
      | false =>
        cases hd : req.startDir.isEmpty with
        | true => simp [RunFSScout, hh, hup, hd]
        | false =>
          cases hl : env.lootDir with
          | error e => simp [RunFSScout, hh, hup, hd, hl]
          | ok loot =>
            cases hm : env.mkdirErr with
            | some e => simp [RunFSScout, hh, hup, hd, hl, hm]
            | none =>
              simp [RunFSScout, runFSScoutSMB, hh, hup, hd, hl, hm, hp, hs,
                hne1]

/-- Witness for C3 (amended): each validation clause exercised on a
concrete request. -/
theorem scout_validation_order_witness :
    RunFSScout envW reqHostEmpty
      = (emptyFSScoutResult, some (str "host is required"), []) ∧
    ((RunFSScout envW reqUserEmpty).2.2 = [] ∧
      ((RunFSScout envW reqUserEmpty).2.1).isSome = true) ∧
    ((RunFSScout envW reqDirEmpty).2.2 = [] ∧
      ((RunFSScout envW reqDirEmpty).2.1).isSome = true) ∧
    (((RunFSScout envW reqSMBNoShare).2.1).isSome = true ∧
      ∀ e ∈ (RunFSScout envW reqSMBNoShare).2.2, ∃ p, e = Effect.mkdir p) :=
  ⟨(scout_validation_order envW reqHostEmpty).1 rfl,
   (scout_validation_order envW reqUserEmpty).2.1 (Or.inl rfl),
   (scout_validation_order envW reqDirEmpty).2.2.1 rfl,
   (scout_validation_order envW reqSMBNoShare).2.2.2 rfl rfl⟩

/-- Counterexample to C5 as stated: a backend (command) failure is
answered with HTTP 400, not 500. -/
theorem fs_scout_backend_failure_http400_cex :
    (handleFSScout envSSHFail reqSSHW).1 = 400 ∧
    (handleFSScout envSSHFail reqSSHW).1 ≠ 500 ∧
    (handleFSScout envSSHFail reqSSHW).2.error
      = str "ssh command failed: exit status 255" := by
  refine ⟨by decide, by decide, by decide⟩

/-- Claim C5 (amended): every `RunFSScout` failure — validation,
not-implemented, backend or persist — is answered with HTTP 400, with
the scout result record as the body (whose error field carries the
message for failures reached after validation); the endpoint never
answers 500 for a scout failure. -/
theorem fs_scout_error_http400 :
    ∀ (env : ScoutEnv) (req : FSScoutRequest) (e : List Char),
      (RunFSScout env req).2.1 = some e →
      (handleFSScout env req).1 = 400 ∧
      (handleFSScout env req).2 = (RunFSScout env req).1 := by
  intro env req e h
  simp [handleFSScout, h]

/-- Witness for C5 (amended): the concrete failed-ssh run. -/
theorem fs_scout_error_http400_witness :
    (handleFSScout envSSHFail reqSSHW).1 = 400 ∧
    (handleFSScout envSSHFail reqSSHW).2 = (RunFSScout envSSHFail reqSSHW).1 :=
  fs_scout_error_http400 envSSHFail reqSSHW
    (str "ssh command failed: exit status 255") (by decide)

end PivotOnTheGO
